import Mathlib

/-!
Verification of the DataOps Observability agents core against its
natural-language specification.  Each section embeds a piece of the
Python source as executable Lean definitions and proves (or refutes)
the corresponding specification claims.
-/

namespace Spec2Proof

/-! ## Observability statuses (src/toolkit/observability, src/legacy_agents/common/status.py)

The `Status` enum maps to the status types accepted by the Events
Ingestion API, plus a catchall `UNKNOWN`. -/

inductive Status where
  | RUNNING
  | COMPLETED
  | COMPLETED_WITH_WARNINGS
  | FAILED
  | UNKNOWN
deriving DecidableEq, Repr, Fintype

/-- `Status.finished`: true when the status represents a finished state
(`self in [COMPLETED, COMPLETED_WITH_WARNINGS, FAILED]`). -/
def Status.finished (s : Status) : Bool :=
  [Status.COMPLETED, Status.COMPLETED_WITH_WARNINGS, Status.FAILED].contains s

/-! ## SSIS core (src/agents/ssis/core.py) -/

/-- Valid statuses for an SSIS Execution (`ExecutionStatus` enum).
`NEW` is an agent-internal default status. -/
inductive ExecutionStatus where
  | NEW
  | CREATED
  | RUNNING
  | CANCELED
  | FAILED
  | PENDING
  | ENDED_UNEXPECTEDLY
  | SUCCEEDED
  | STOPPING
  | COMPLETED
deriving DecidableEq, Repr, Fintype

/-- Valid results for an SSIS ExecutableStatistic (`ExecutableStatisticResult` enum). -/
inductive ExecutableStatisticResult where
  | SUCCEEDED
  | FAILED
  | COMPLETED
  | CANCELED
deriving DecidableEq, Repr

/-- `EXPECTED_STATUS_TRANSITIONS`: each entry is
(new Observability status, previous-status tuple or `none` for Ellipsis,
captured-status tuple), in source order. -/
def EXPECTED_STATUS_TRANSITIONS :
    List (Status × Option (List ExecutionStatus) × List ExecutionStatus) :=
  [ (Status.RUNNING,
      some [ExecutionStatus.NEW, ExecutionStatus.CREATED, ExecutionStatus.PENDING],
      [ExecutionStatus.RUNNING, ExecutionStatus.FAILED, ExecutionStatus.SUCCEEDED,
        ExecutionStatus.COMPLETED, ExecutionStatus.ENDED_UNEXPECTEDLY]),
    (Status.COMPLETED, none, [ExecutionStatus.SUCCEEDED]),
    (Status.COMPLETED_WITH_WARNINGS, none, [ExecutionStatus.COMPLETED]),
    (Status.FAILED, none, [ExecutionStatus.FAILED, ExecutionStatus.ENDED_UNEXPECTEDLY]) ]

/-- `calculate_status_transitions(prev_status, reported_status)`: yields, in table
order, every status whose entry matches the previous and reported statuses. -/
def calculate_status_transitions (prev_status reported_status : ExecutionStatus) :
    List Status :=
  (EXPECTED_STATUS_TRANSITIONS.filter (fun t =>
      (match t.2.1 with
        | none => true
        | some expected_prev => expected_prev.contains prev_status)
      && t.2.2.contains reported_status)).map (fun t => t.1)

/-- `STAT_RESULT_TO_RUN_STATUS_MAP`: maps an ExecutableStatistic result to an
Observability Task status. -/
def STAT_RESULT_TO_RUN_STATUS_MAP : ExecutableStatisticResult → Status
  | ExecutableStatisticResult.SUCCEEDED => Status.COMPLETED
  | ExecutableStatisticResult.COMPLETED => Status.COMPLETED_WITH_WARNINGS
  | ExecutableStatisticResult.CANCELED => Status.FAILED
  | ExecutableStatisticResult.FAILED => Status.FAILED

/-- The transition table exactly as the specification claim words it:
RUNNING when prev is in {NEW, CREATED, PENDING} and reported is in
{RUNNING, FAILED, SUCCEEDED, COMPLETED, ENDED_UNEXPECTEDLY}; COMPLETED when
reported is SUCCEEDED; COMPLETED_WITH_WARNINGS when reported is COMPLETED;
FAILED when reported is in {FAILED, ENDED_UNEXPECTEDLY}; in that order. -/
def claimedTransitions (prev_status reported_status : ExecutionStatus) :
    List Status :=
  (if [ExecutionStatus.NEW, ExecutionStatus.CREATED,
        ExecutionStatus.PENDING].contains prev_status
      && [ExecutionStatus.RUNNING, ExecutionStatus.FAILED, ExecutionStatus.SUCCEEDED,
            ExecutionStatus.COMPLETED, ExecutionStatus.ENDED_UNEXPECTEDLY].contains
          reported_status
    then [Status.RUNNING] else [])
  ++ (if reported_status = ExecutionStatus.SUCCEEDED then [Status.COMPLETED] else [])
  ++ (if reported_status = ExecutionStatus.COMPLETED
      then [Status.COMPLETED_WITH_WARNINGS] else [])
  ++ (if [ExecutionStatus.FAILED, ExecutionStatus.ENDED_UNEXPECTEDLY].contains
        reported_status
      then [Status.FAILED] else [])

/-! ## HTTP responses and retry loops (src/framework/core/handles/http_request_handle.py) -/

/-- An HTTP response as far as the retry logic observes it: a status code and a
body text. -/
structure HTTPResponse where
  status_code : ℕ
  text : String
deriving DecidableEq, Repr

/-- Substring containment on character lists, mirroring the Python `in`
operator on strings: the needle occurs contiguously somewhere in the
haystack. -/
def hasSubstr (needle : List Char) : List Char → Bool
  | [] => needle.isEmpty
  | c :: rest => needle.isPrefixOf (c :: rest) || hasSubstr needle rest

/-- `has_retry_text(value)` from src/framework/core/handles/lib.py: false for a
missing or empty value, otherwise whether the body contains the substring
`"please try again in a bit"`. -/
def has_retry_text (value : Option String) : Bool :=
  match value with
  | none => false
  | some v =>
      if v = "" then false
      else hasSubstr ("please try again in a bit".toList) v.toList

/-- The condition guarding the auth-soft-failure retry loop:
`response.status_code == 401 and has_retry_text(response.text)`. -/
def authRetryMatches (r : HTTPResponse) : Bool :=
  r.status_code == 401 && has_retry_text (some r.text)

/-- Outcome of a `handle()` retry loop: the returned response, the total number
of HTTP requests issued (the initial one included), and the total time slept
between requests, in seconds. -/
structure RetryOutcome where
  response : HTTPResponse
  requests : ℕ
  slept : ℚ
deriving DecidableEq, Repr

/-- The shared body of both retry `for` loops in `HTTPAPIRequestHandle.handle`:
`for i in range(fuel): wait = b * 2 ** (i - 1); sleep(wait); response = request();
if keep(response): continue else: return response` followed by returning the last
response when the loop runs out.  `respOf n` is the response of the n-th request
issued by the handle (the initial request is request 0).  The wait
`b * 2 ** (i - 1)` is written `b * 2 ^ i / 2`, its value for every `i ≥ 0`. -/
def retryLoopGo (keep : HTTPResponse → Bool) (b : ℚ) (respOf : ℕ → HTTPResponse) :
    ℕ → ℕ → HTTPResponse → ℕ → ℚ → RetryOutcome
  | 0, _i, response, requests, slept => ⟨response, requests, slept⟩
  | fuel + 1, i, _response, requests, slept =>
      let wait := b * (2 : ℚ) ^ i / 2
      let response := respOf requests
      if keep response then
        retryLoopGo keep b respOf fuel (i + 1) response (requests + 1) (slept + wait)
      else
        ⟨response, requests + 1, slept + wait⟩

/-- The auth-soft-failure heuristic stage of `handle()`: when the first response
has status 401 and carries the retry text, replay the request up to 3 times with
waits `0.5 * 2 ** (i - 1)`, returning as soon as a reply no longer matches, and
returning the last response otherwise. -/
def authRetryStage (respOf : ℕ → HTTPResponse) : RetryOutcome :=
  let response := respOf 0
  if authRetryMatches response then
    retryLoopGo authRetryMatches ((1 : ℚ) / 2) respOf 3 0 response 1 0
  else
    ⟨response, 1, 0⟩

/-- The configured status-code retry stage of `handle()`, for a handle whose
retry configuration holds the single entry
`{status_code := S, retry_count, backoff_multiplier}`: when the first response
has status `S`, retry up to `retry_count` times with waits
`backoff_multiplier * 2 ** (i - 1)`, returning as soon as the status changes. -/
def configuredRetryStage (S : ℕ) (backoff_multiplier : ℚ) (retry_count : ℕ)
    (respOf : ℕ → HTTPResponse) : RetryOutcome :=
  let response := respOf 0
  if response.status_code == S then
    retryLoopGo (fun r => r.status_code == S) backoff_multiplier respOf
      retry_count 0 response 1 0
  else
    ⟨response, 1, 0⟩

/-- A server that answers status `S` for the first `k` requests and 200 from
then on, with an empty body. -/
def serverKThenOk (S k : ℕ) : ℕ → HTTPResponse :=
  fun n => if n < k then ⟨S, ""⟩ else ⟨200, ""⟩

/-- Claim-side helper for the auth-heuristic loop: the index (1, 2, or 3) of the
replayed request whose reply first fails the heuristic, or 3 when all replies
keep matching. -/
def firstNonMatching (respOf : ℕ → HTTPResponse) : ℕ :=
  if ¬ authRetryMatches (respOf 1) then 1
  else if ¬ authRetryMatches (respOf 2) then 2
  else 3

/-! ## Rate-limit parsing (src/framework/core/handles/lib.py) -/

/-- `parse_rate_limit(value)`: if the value is larger than a day of seconds it is
taken to be an absolute Unix timestamp and the wait is `value - now`; the result
is capped at the configured `read_timeout`.  The wall clock and the configured
read timeout are explicit arguments in this embedding. -/
def parse_rate_limit (value now read_timeout : ℚ) : ℚ :=
  let limit := if 86400 < value then value - now else value
  if read_timeout < limit then read_timeout else limit

/-! ## Event sender (src/framework/observability/event_sender.py,
src/framework/observability/helpers.py, src/framework/core/tasks/task.py) -/

/-- `EVENT_TYPE_KEY` from src/framework/observability/events.py. -/
def EVENT_TYPE_KEY : String := "EVENT_TYPE"

/-- An event payload: a finite mapping from string keys to string-rendered
values, with first-match lookup. -/
abbrev EventPayload := List (String × String)

/-- The observable side effects of one `EventSenderTask.execute` call. -/
structure SenderTrace where
  requested : Bool
  loggedMissingKey : Bool
  logged400Body : Bool
  timestampUpdated : Bool
deriving DecidableEq, Repr

/-- What the undecorated `execute` body does with control: either it returns, or
`result.raise_for_status()` raises an `HTTPStatusError` carrying the response
status code. -/
inductive RawOutcome where
  | returns
  | httpStatusError (code : ℕ)
deriving DecidableEq, Repr

/-- Control outcome after the `handle_observability_exception` decorator. -/
inductive WrappedOutcome where
  | returns
  | unrecoverableError
  | httpStatusError (code : ℕ)
deriving DecidableEq, Repr

/-- Control outcome after `Task.execute_task`: the tick either completed, or it
re-raised `UnrecoverableError`, or the exception was logged and swallowed so the
loop continues with the next event. -/
inductive TaskOutcome where
  | completed
  | raisedUnrecoverable
  | swallowedError
deriving DecidableEq, Repr

/-- `httpx.Response.is_success`: a 2xx status. `raise_for_status` raises an
`HTTPStatusError` exactly when the status is not a success. -/
def isSuccessStatus (code : ℕ) : Bool := 200 ≤ code && code < 300

/-- The body of `EventSenderTask.execute(event)`: when the event lacks the
`EVENT_TYPE` key, log an error and return; otherwise POST the event
(`respStatus` is the status of the final response of the POST handle), run
`post_hook` (which logs the body of a 400 response), call
`raise_for_status`, and on success record the wall clock into
`state_store.latest_event_timestamp`. -/
def eventSenderExecute (event : EventPayload) (respStatus : ℕ) :
    SenderTrace × RawOutcome :=
  match event.lookup EVENT_TYPE_KEY with
  | none =>
      (⟨false, true, false, false⟩, RawOutcome.returns)
  | some _ =>
      let logged400 := respStatus == 400
      if isSuccessStatus respStatus then
        (⟨true, false, logged400, true⟩, RawOutcome.returns)
      else
        (⟨true, false, logged400, false⟩, RawOutcome.httpStatusError respStatus)

/-- `handle_observability_exception`: an `HTTPStatusError` whose response status
is 401 (UNAUTHORIZED) is turned into `UnrecoverableError`; any other
`HTTPStatusError` is re-raised unchanged. -/
def handle_observability_exception (r : SenderTrace × RawOutcome) :
    SenderTrace × WrappedOutcome :=
  match r with
  | (t, RawOutcome.returns) => (t, WrappedOutcome.returns)
  | (t, RawOutcome.httpStatusError code) =>
      if code == 401 then (t, WrappedOutcome.unrecoverableError)
      else (t, WrappedOutcome.httpStatusError code)

/-- `Task.execute_task`: `UnrecoverableError` cancels the scope and is
re-raised; every other exception is logged and swallowed. -/
def execute_task (r : SenderTrace × WrappedOutcome) : SenderTrace × TaskOutcome :=
  match r with
  | (t, WrappedOutcome.returns) => (t, TaskOutcome.completed)
  | (t, WrappedOutcome.unrecoverableError) => (t, TaskOutcome.raisedUnrecoverable)
  | (t, WrappedOutcome.httpStatusError _) => (t, TaskOutcome.swallowedError)

/-- One full event-sender tick: the decorated `execute` run under
`execute_task`. -/
def eventSenderTick (event : EventPayload) (respStatus : ℕ) :
    SenderTrace × TaskOutcome :=
  execute_task (handle_observability_exception (eventSenderExecute event respStatus))

/-! ## Configuration registry (src/registry/configuration_registry.py) -/

/-- A configuration block as `model_dump` renders it: an association list from
field names to values, first match wins. -/
abbrev ConfigBlock := List (String × String)

/-- The registry contents: block name to block. -/
abbrev Registry := List (String × ConfigBlock)

/-- `current_model.model_dump(exclude=keys)`: every field of the block whose
name is not among the excluded keys. -/
def model_dump_exclude (b : ConfigBlock) (keys : List String) : ConfigBlock :=
  b.filter (fun p => !(keys.contains p.1))

/-- `configuration_class(**current_model.model_dump(exclude=set(kwargs.keys())),
**kwargs)`: the reconstructed block takes the override value on every overridden
field and the original value elsewhere. -/
def mutateBlock (b : ConfigBlock) (overrides : ConfigBlock) : ConfigBlock :=
  model_dump_exclude b (overrides.map Prod.fst) ++ overrides

/-- `ConfigurationRegistry.mutate(configuration_id, configuration_class,
**kwargs)`: looks the current block up and builds a new one; the registry
mapping itself is read, never written, so it is returned unchanged. -/
def registryMutate (reg : Registry) (configuration_id : String)
    (overrides : ConfigBlock) : Option ConfigBlock × Registry :=
  ((reg.lookup configuration_id).map (fun b => mutateBlock b overrides), reg)

/-- `ConfigurationRegistry.lookup(configuration_id, ...)`. -/
def registryLookup (reg : Registry) (configuration_id : String) :
    Option ConfigBlock :=
  reg.lookup configuration_id

/-! ## SSIS agent state and the FindAddedStatistics tick
(src/agents/ssis/agent_state.py, src/agents/ssis/tasks.py)

Python objects are aliased: the task snapshots the monitored `ExecutionState`
objects into a list, and `AgentState.stop_monitoring` mutates those same
objects and deletes entries from the `monitored_executions` dict.  The
embedding therefore keeps a `heap` of all `ExecutionState` objects (keyed by
execution id, never deleted) next to the list of ids currently present in the
dict. -/

/-- `ExecutionState`: the agent-side state of one Execution.  The
`StateMonitoring` flag set is expanded into its two member bits. -/
structure ExecutionState where
  execution_id : ℕ
  monStatusChange : Bool
  monStatisticsAdded : Bool
  last_seen_statistic_id : ℕ
deriving DecidableEq, Repr

/-- A row of the `executable_statistics` catalog table, as far as the
FindAddedStatistics query consumes it. -/
structure StatRow where
  execution_id : ℕ
  statistics_id : ℕ
deriving DecidableEq, Repr

/-- Look an `ExecutionState` object up by execution id. -/
def findExec (heap : List ExecutionState) (eid : ℕ) : Option ExecutionState :=
  heap.find? (fun s => s.execution_id == eid)

/-- Mutate the `ExecutionState` object with the given execution id in place. -/
def updateExec (heap : List ExecutionState) (eid : ℕ)
    (f : ExecutionState → ExecutionState) : List ExecutionState :=
  heap.map (fun s => if s.execution_id == eid then f s else s)

/-- The `AgentState`: the object heap plus the key set of the
`monitored_executions` dict. -/
structure SsisAgentState where
  heap : List ExecutionState
  dictIds : List ℕ
deriving DecidableEq, Repr

/-- `AgentState.stop_monitoring(execution_id, StateMonitoring.STATISTICS_ADDED)`:
indexing a missing dict key raises `KeyError` (`none`); otherwise
`monitoring ^= monitoring & STATISTICS_ADDED` clears the statistics flag, and
when no flag remains the entry is deleted from the dict. -/
def stop_monitoring_statistics (st : SsisAgentState) (eid : ℕ) :
    Option SsisAgentState :=
  if st.dictIds.contains eid then
    let heap2 := updateExec st.heap eid (fun s => { s with monStatisticsAdded := false })
    let stillMonitored :=
      match findExec heap2 eid with
      | some s => s.monStatusChange || s.monStatisticsAdded
      | none => false
    some { heap := heap2,
           dictIds := if stillMonitored then st.dictIds else st.dictIds.erase eid }
  else
    none

/-- The running state of one `SsisFindAddedExecutableStatisticsTask.execute`
tick: the agent state, the `monitoring_to_stop` id set, the execution ids
`stop_monitoring` has been called for, and the statistics sent downstream. -/
structure FindAddedTickState where
  agent : SsisAgentState
  toStop : List ℕ
  stopped : List ℕ
  sent : List StatRow
deriving DecidableEq, Repr

/-- Insert a statistics row into a list sorted by ascending `statistics_id`. -/
def insertByStatId (r : StatRow) : List StatRow → List StatRow
  | [] => [r]
  | x :: xs =>
      if r.statistics_id ≤ x.statistics_id then r :: x :: xs
      else x :: insertByStatId r xs

/-- `ORDER BY [statistics_id] ASC` of the batch query. -/
def sortByStatId (l : List StatRow) : List StatRow :=
  l.foldr insertByStatId []

/-- The rows the batch query returns: statistics of the executions in the
chunk whose `statistics_id` exceeds the current value of that execution for
`last_seen_statistic_id`, in ascending `statistics_id` order. -/
def batchRows (db : List StatRow) (heap : List ExecutionState) (chunk : List ℕ) :
    List StatRow :=
  sortByStatId (db.filter (fun r =>
    chunk.contains r.execution_id &&
    (match findExec heap r.execution_id with
      | some s => s.last_seen_statistic_id < r.statistics_id
      | none => false)))

/-- Processing of one fetched statistics row:
`exec_state = AGENT_STATE.monitored_executions[stats.execution_id]` (a missing
key raises `KeyError`), `exec_state.set_last_stat_id(stats.statistics_id)`,
`monitoring_to_stop.discard(stats.statistics_id)`, `send(stats)`. -/
def processStatRow (ts : FindAddedTickState) (row : StatRow) :
    Option FindAddedTickState :=
  if ts.agent.dictIds.contains row.execution_id then
    some { ts with
      agent := { ts.agent with
        heap := updateExec ts.agent.heap row.execution_id
          (fun s => { s with
            last_seen_statistic_id := max s.last_seen_statistic_id row.statistics_id }) },
      toStop := ts.toStop.erase row.statistics_id,
      sent := ts.sent ++ [row] }
  else
    none

/-- The rows of one batch, processed in order. -/
def processRows : FindAddedTickState → List StatRow → Option FindAddedTickState
  | ts, [] => some ts
  | ts, r :: rs =>
      match processStatRow ts r with
      | some ts2 => processRows ts2 rs
      | none => none

/-- The per-batch sweep over the full snapshot list: for every snapshotted
execution that no longer carries `STATUS_CHANGE` and is still in
`monitoring_to_stop`, call `stop_monitoring(execution_id, STATISTICS_ADDED)`. -/
def stopSweep : FindAddedTickState → List ℕ → Option FindAddedTickState
  | ts, [] => some ts
  | ts, sid :: rest =>
      match findExec ts.agent.heap sid with
      | none => stopSweep ts rest
      | some s =>
          if !s.monStatusChange && ts.toStop.contains sid then
            match stop_monitoring_statistics ts.agent sid with
            | some ag2 =>
                stopSweep { ts with agent := ag2, stopped := ts.stopped ++ [sid] } rest
            | none => none
          else
            stopSweep ts rest

/-- The `while True` batch loop of the tick: take a chunk of at most
`batchSize` snapshot ids, break when it is empty, otherwise query and process
its new statistics and then run the stop sweep, and continue with the rest.
The loop consumes at least one id per batch, so `fuel` bounds the number of
batches; the caller passes `remaining.length + 1`, which is always enough, and
the fuel-exhausted case is unreachable. -/
def findAddedGo (batchSize : ℕ) (db : List StatRow) (snapshotIds : List ℕ) :
    ℕ → List ℕ → FindAddedTickState → Option FindAddedTickState
  | 0, _remaining, ts => some ts
  | fuel + 1, remaining, ts =>
      if remaining.take batchSize = [] then some ts
      else
        match processRows ts (batchRows db ts.agent.heap (remaining.take batchSize)) with
        | none => none
        | some ts2 =>
            match stopSweep ts2 snapshotIds with
            | none => none
            | some ts3 =>
                findAddedGo batchSize db snapshotIds fuel (remaining.drop batchSize) ts3

/-- One `SsisFindAddedExecutableStatisticsTask.execute` tick over the
monitored executions `states` (the contents of `monitored_executions`) and the
catalog contents `db`.  Returns `none` when the tick dies with `KeyError`. -/
def findAddedStatisticsTick (batchSize : ℕ) (db : List StatRow)
    (states : List ExecutionState) : Option FindAddedTickState :=
  let snapshot := (states.filter (fun s => s.monStatisticsAdded)).map
    (fun s => s.execution_id)
  findAddedGo batchSize db snapshot (snapshot.length + 1) snapshot
    { agent := { heap := states, dictIds := states.map (fun s => s.execution_id) },
      toStop := snapshot, stopped := [], sent := [] }

/-! ## Synapse MonitorRunTask (src/agents/synapse_analytics/monitor_run_task.py) -/

/-- The mutable fields of `MonitorRunTask` the finalization logic touches. -/
structure MonitorRunState where
  status : Status
  finish_counter : ℕ
  is_done : Bool
deriving DecidableEq, Repr

/-- `MonitorRunTask.__init__`: `finish_counter = 0`, `status = UNKNOWN`. -/
def initialMonitorRunState : MonitorRunState :=
  { status := Status.UNKNOWN, finish_counter := 0, is_done := false }

/-- One `MonitorRunTask._execute` tick, given the Observability status the
Synapse API reports for the run this tick (after `get_observability_status`).
Returns the new task state and the run-status events emitted (as their
statuses): a RUNNING event when the run first leaves UNKNOWN, and the final
status event when `finish_counter` reaches 2, which also sets `is_done`. -/
def monitorRunStep (observed : Status) (s : MonitorRunState) :
    MonitorRunState × List Status :=
  let prev_status := s.status
  let newStatus := if observed ≠ Status.UNKNOWN then observed else s.status
  let emittedRunning :=
    if prev_status = Status.UNKNOWN ∧ newStatus ≠ Status.UNKNOWN
    then [Status.RUNNING] else []
  let counter := s.finish_counter + (if observed.finished then 1 else 0)
  if 2 ≤ counter then
    ({ status := newStatus, finish_counter := counter, is_done := true },
      emittedRunning ++ [observed])
  else
    ({ status := newStatus, finish_counter := counter, is_done := s.is_done },
      emittedRunning)

/-- The periodic loop around the task: run one tick per observed status and
stop as soon as the task reports `is_done`. -/
def monitorRunTicks : List Status → MonitorRunState → MonitorRunState
  | [], s => s
  | o :: rest, s =>
      let s2 := (monitorRunStep o s).1
      if s2.is_done then s2 else monitorRunTicks rest s2

/-! ## SSIS HandleNewStatistics (src/agents/ssis/tasks.py) -/

/-- A row of `executable_statistics` as `SsisHandleNewExecutableStatisticsTask`
consumes it.  Timestamps are abstract instants. -/
structure ExecutableStatisticRow where
  execution_path : String
  execution_result : ExecutableStatisticResult
  start_time : ℕ
  end_time : ℕ
deriving DecidableEq, Repr

/-- A run-status event for a Task: the status and the event timestamp. -/
structure TaskStatusEvent where
  status : Status
  event_timestamp : ℕ
deriving DecidableEq, Repr

/-- `str.rpartition(sep)` restricted to what the task uses: `some (before,
after)` splits at the last occurrence of `sep`; `none` when `sep` does not
occur (the Python triple then has an empty separator). -/
def rpartitionLastSep (sep : Char) : List Char → Option (List Char × List Char)
  | [] => none
  | c :: rest =>
      match rpartitionLastSep sep rest with
      | some (before, after) => some (c :: before, after)
      | none => if c = sep then some ([], rest) else none

/-- Helper for the loop-index stripping: after an opening bracket, try to
consume one or more digits followed by a closing bracket, returning the
remainder of the list on success. -/
def dropLoopIdxAt (l : List Char) : Option (List Char) :=
  if (l.takeWhile (fun c => c.isDigit)).isEmpty then none
  else
    match l.drop (l.takeWhile (fun c => c.isDigit)).length with
    | ']' :: rest => some rest
    | _ => none

/-- `re.sub(r"\[\d+\]", "", container_path)`: delete every occurrence of an
opening bracket, one or more digits, and a closing bracket, scanning left to
right.  The scan shortens the list at every step, so a fuel of the list length
is always enough; the fuel-exhausted case is unreachable. -/
def stripLoopIndexesGo : ℕ → List Char → List Char
  | 0, l => l
  | _fuel + 1, [] => []
  | fuel + 1, c :: rest =>
      if c = '[' then
        match dropLoopIdxAt rest with
        | some suffix => stripLoopIndexesGo fuel suffix
        | none => c :: stripLoopIndexesGo fuel rest
      else c :: stripLoopIndexesGo fuel rest

/-- `re.sub(r"\[\d+\]", "", container_path)`. -/
def stripLoopIndexes (l : List Char) : List Char :=
  stripLoopIndexesGo l.length l

/-- `set.add` on the container-path set, modelled as an ordered list without
duplicates. -/
def addContainer (containers : List String) (x : String) : List String :=
  if containers.contains x then containers else containers ++ [x]

/-- `SsisHandleNewExecutableStatisticsTask.execute(stat)` for one statistic of
one execution: `containers` is the `container_executables` set held by the
`ExecutionState` of that execution.  A statistic whose path is already a known
container is ignored; otherwise the prefix before the last backslash, with
loop indexes stripped, is registered (when a backslash occurs at all) and a
RUNNING plus a terminal run-status event are emitted. -/
def handleNewStatistic (containers : List String) (stat : ExecutableStatisticRow) :
    List String × List TaskStatusEvent :=
  if containers.contains stat.execution_path then (containers, [])
  else
    let containers2 :=
      match rpartitionLastSep '\\' stat.execution_path.toList with
      | some (container_path, _) =>
          addContainer containers (String.mk (stripLoopIndexes container_path))
      | none => containers
    (containers2,
      [ { status := Status.RUNNING, event_timestamp := stat.start_time },
        { status := STAT_RESULT_TO_RUN_STATUS_MAP stat.execution_result,
          event_timestamp := stat.end_time } ])

/-- Claim-side helper: the container path a statistic path denotes, per the
specification wording — the prefix before the last backslash with every
bracketed digit-run removed. -/
def containerOf (p : String) : String :=
  match rpartitionLastSep '\\' p.toList with
  | some (before, _) => String.mk (stripLoopIndexes before)
  | none => p

/-- A server for the auth-heuristic witness: the first response is a 401 with
the retry text, every later one a plain 200. -/
def authDemoServer : ℕ → HTTPResponse :=
  fun n => if n = 0 then ⟨401, "please try again in a bit"⟩ else ⟨200, ""⟩

/-! # Theorems -/

/-- C1: `calculate_status_transitions` yields, for every pair of previous and
reported SSIS statuses, exactly the Observability statuses of the transition
table, in table order — RUNNING when prev is in {NEW, CREATED, PENDING} and
reported is in {RUNNING, FAILED, SUCCEEDED, COMPLETED, ENDED_UNEXPECTEDLY},
COMPLETED when reported is SUCCEEDED, COMPLETED_WITH_WARNINGS when reported is
COMPLETED, FAILED when reported is in {FAILED, ENDED_UNEXPECTEDLY}, and no
others; in particular (NEW, SUCCEEDED) yields RUNNING then COMPLETED. -/
theorem C1_status_transitions_match_table :
    (∀ prev reported, calculate_status_transitions prev reported
        = claimedTransitions prev reported)
    ∧ calculate_status_transitions ExecutionStatus.NEW ExecutionStatus.SUCCEEDED
        = [Status.RUNNING, Status.COMPLETED] :=
  ⟨by decide, by decide⟩

/-- C4 (corrected): for a rate-limit value above 86400, `parse_rate_limit`
returns `t - now` clamped above by the read timeout.  There is no lower clamp
at zero, so the result is negative for timestamps sufficiently far in the
past. -/
theorem C4_parse_rate_limit_timestamp (t now read_timeout : ℚ)
    (h : 86400 < t) :
    parse_rate_limit t now read_timeout = min read_timeout (t - now) := by
  unfold parse_rate_limit
  rw [if_pos h]
  rcases le_or_lt (t - now) read_timeout with hle | hlt
  · rw [if_neg (not_lt.mpr hle), min_eq_right hle]
  · rw [if_pos hlt, min_eq_left (le_of_lt hlt)]

/-- C4 witness: a timestamp two minutes ahead of a clock past the first day,
with a 60-second read timeout, waits the full read timeout. -/
theorem C4_parse_rate_limit_timestamp_witness :
    (86400 : ℚ) < 86520 ∧ parse_rate_limit 86520 86400 60 = min 60 (86520 - 86400) :=
  ⟨by norm_num, C4_parse_rate_limit_timestamp 86520 86400 60 (by norm_num)⟩

/-- C4 counterexample: for the past timestamp 86401 read at clock 100000 the
claim promises a wait of `max 0 (86401 - 100000) = 0`, but the code returns
the negative value `86401 - 100000 = -13599`. -/
theorem C4_parse_rate_limit_counterexample :
    parse_rate_limit 86401 100000 60 < 0 ∧ (86400 : ℚ) < 86401 := by
  constructor
  · norm_num [parse_rate_limit]
  · norm_num

/-- C10: an event without the EVENT_TYPE key makes `execute` log an error and
return at once: no HTTP request, no timestamp update, no exception — the tick
completes normally and the event is dropped. -/
theorem C10_missing_event_type_key (event : EventPayload) (respStatus : ℕ)
    (h : event.lookup EVENT_TYPE_KEY = none) :
    eventSenderTick event respStatus
      = ({ requested := false, loggedMissingKey := true, logged400Body := false,
           timestampUpdated := false }, TaskOutcome.completed) := by
  unfold eventSenderTick eventSenderExecute
  rw [h]
  rfl

/-- C10 witness: a payload carrying only a status field is dropped without a
request. -/
theorem C10_missing_event_type_key_witness :
    ([("status", "RUNNING")] : EventPayload).lookup EVENT_TYPE_KEY = none
    ∧ eventSenderTick [("status", "RUNNING")] 200
        = ({ requested := false, loggedMissingKey := true, logged400Body := false,
             timestampUpdated := false }, TaskOutcome.completed) :=
  ⟨by decide, C10_missing_event_type_key [("status", "RUNNING")] 200 (by decide)⟩

/-- C2: for an event that has the EVENT_TYPE key, the sender tick re-raises
`UnrecoverableError` exactly when the POST answers 401; a 400 answer logs the
response body and ends as a swallowed `HTTPStatusError`, so the loop continues
with the next event. -/
theorem C2_unrecoverable_iff_401 (event : EventPayload) (v : String) (s : ℕ)
    (h : event.lookup EVENT_TYPE_KEY = some v) :
    ((eventSenderTick event s).2 = TaskOutcome.raisedUnrecoverable ↔ s = 401)
    ∧ (eventSenderTick event 400).1.logged400Body = true
    ∧ (eventSenderTick event 400).2 = TaskOutcome.swallowedError := by
  refine ⟨?_, ?_, ?_⟩
  · unfold eventSenderTick eventSenderExecute
    rw [h]
    by_cases hs : isSuccessStatus s = true
    · have h401 : s ≠ 401 := by
        simp only [isSuccessStatus, Bool.and_eq_true, decide_eq_true_eq] at hs
        omega
      simp [hs, handle_observability_exception, execute_task, h401]
    · simp only [Bool.not_eq_true] at hs
      rw [if_neg (by simp [hs])]
      by_cases h401 : s = 401
      · subst h401
        simp [handle_observability_exception, execute_task]
      · have : (s == 401) = false := by simp [h401]
        simp [handle_observability_exception, execute_task, this, h401]
  · unfold eventSenderTick eventSenderExecute
    rw [h]
    rfl
  · unfold eventSenderTick eventSenderExecute
    rw [h]
    rfl

/-- C2 witness: with the EVENT_TYPE key present, a 401 answer raises
`UnrecoverableError` and a 400 answer is logged and swallowed. -/
theorem C2_unrecoverable_iff_401_witness :
    ([(EVENT_TYPE_KEY, "run-status")] : EventPayload).lookup EVENT_TYPE_KEY
        = some "run-status"
    ∧ (((eventSenderTick [(EVENT_TYPE_KEY, "run-status")] 401).2
          = TaskOutcome.raisedUnrecoverable ↔ (401 : ℕ) = 401)
        ∧ (eventSenderTick [(EVENT_TYPE_KEY, "run-status")] 400).1.logged400Body = true
        ∧ (eventSenderTick [(EVENT_TYPE_KEY, "run-status")] 400).2
            = TaskOutcome.swallowedError) :=
  ⟨by decide,
    C2_unrecoverable_iff_401 [(EVENT_TYPE_KEY, "run-status")] "run-status" 401 (by decide)⟩

/-- C6 (code bug): one monitored execution (id 1, STATISTICS_ADDED only,
last seen statistic 0) and one new catalog row (execution 1, statistic 2): the
tick sends the new statistic downstream and nevertheless calls
`stop_monitoring(1, STATISTICS_ADDED)`, because the code discards the
`statistics_id` of the row (2) instead of its `execution_id` (1) from
`monitoring_to_stop`. -/
theorem C6_stop_monitoring_discard_bug :
    (findAddedStatisticsTick 100 [⟨1, 2⟩] [⟨1, false, true, 0⟩]).map
        (fun ts => (ts.stopped, ts.sent)) = some ([1], [⟨1, 2⟩]) := by
  decide

/-- Helper for C7: from any live state whose finish counter is below 2, the
loop ends done exactly when the carried counter plus the number of finished
observations reaches 2. -/
theorem monitorRunTicks_done_iff (obs : List Status) :
    ∀ s : MonitorRunState, s.is_done = false → s.finish_counter < 2 →
      ((monitorRunTicks obs s).is_done = true
        ↔ 2 ≤ s.finish_counter + obs.countP (fun o => o.finished)) := by
  induction obs with
  | nil =>
      intro s hd hc
      simp only [monitorRunTicks, List.countP_nil, hd]
      constructor
      · intro hfalse; exact absurd hfalse (by simp)
      · intro hle; omega
  | cons o rest ih =>
      intro s hd hc
      simp only [monitorRunTicks, monitorRunStep, List.countP_cons]
      by_cases h2 : 2 ≤ s.finish_counter + (if o.finished = true then 1 else 0)
      · rw [if_pos h2]
        dsimp only
        constructor
        · intro _
          rcases Bool.eq_false_or_eq_true o.finished with hf | hf <;>
            simp [hf] at h2 ⊢ <;> omega
        · intro _; rfl
      · rw [if_neg h2]
        simp only [hd]
        rw [if_neg (by simp)]
        rw [ih _ rfl (by dsimp only; omega)]
        dsimp only
        rcases Bool.eq_false_or_eq_true o.finished with hf | hf <;>
          simp [hf] at h2 ⊢ <;> omega

/-- C7 (corrected): starting from a fresh `MonitorRunTask`, the run is
finalized (the task becomes done) exactly when two ticks — consecutive or not —
have observed a finished status: the finish counter is never reset by a
non-finished tick in between. -/
theorem C7_finalize_after_two_finished_ticks (obs : List Status) :
    (monitorRunTicks obs initialMonitorRunState).is_done = true
      ↔ 2 ≤ obs.countP (fun o => o.finished) := by
  have h := monitorRunTicks_done_iff obs initialMonitorRunState rfl (by
    simp [initialMonitorRunState])
  simpa [initialMonitorRunState] using h

/-- C7 counterexample: observing FAILED, then RUNNING, then FAILED — two
non-adjacent finished observations — does finalize the run, contradicting the
claim that a non-finished tick in between resets the two-consecutive-ticks
requirement. -/
theorem C7_nonadjacent_finished_finalizes :
    Status.FAILED.finished = true
    ∧ Status.RUNNING.finished = false
    ∧ (monitorRunTicks [Status.FAILED, Status.RUNNING, Status.FAILED]
        initialMonitorRunState).is_done = true := by
  refine ⟨by decide, by decide, by decide⟩

/-- Helper: `rpartitionLastSep` finds a split exactly when the separator
occurs in the list. -/
theorem rpartitionLastSep_isSome_iff (sep : Char) (l : List Char) :
    (rpartitionLastSep sep l).isSome = true ↔ sep ∈ l := by
  induction l with
  | nil => simp [rpartitionLastSep]
  | cons c rest ih =>
      cases hr : rpartitionLastSep sep rest with
      | some p =>
          rw [hr] at ih
          simp only [Option.isSome_some, true_iff] at ih
          simp only [rpartitionLastSep, hr, Option.isSome_some, true_iff, List.mem_cons]
          exact Or.inr ih
      | none =>
          rw [hr] at ih
          simp only [Option.isSome_none, Bool.false_eq_true, false_iff] at ih
          by_cases hc : c = sep
          · subst hc
            simp [rpartitionLastSep, hr]
          · simp [rpartitionLastSep, hr, hc, ih, Ne.symm hc]

/-- Helper: the added container path is a member of the updated set. -/
theorem mem_addContainer (containers : List String) (x : String) :
    x ∈ addContainer containers x := by
  unfold addContainer
  by_cases h : containers.contains x = true
  · rw [if_pos h]
    exact List.mem_of_elem_eq_true h
  · rw [if_neg h]
    exact List.mem_append_right _ (List.mem_singleton.mpr rfl)

/-- C8 (corrected): for one statistic against the container set of its execution —
a statistic whose path is already a registered container is skipped entirely
(no events, no registration, in particular its own prefix is *not* registered);
any other statistic emits exactly the RUNNING event with its start time and
the mapped terminal event with its end time, and, when its path contains a
backslash, registers the prefix before the last backslash with loop indexes
stripped. -/
theorem C8_container_detection (containers : List String)
    (stat : ExecutableStatisticRow) :
    (containers.contains stat.execution_path = true →
        handleNewStatistic containers stat = (containers, []))
    ∧ (containers.contains stat.execution_path = false →
        (handleNewStatistic containers stat).2
            = [⟨Status.RUNNING, stat.start_time⟩,
                ⟨STAT_RESULT_TO_RUN_STATUS_MAP stat.execution_result, stat.end_time⟩]
        ∧ (stat.execution_path.toList.contains '\\' = true →
            containerOf stat.execution_path ∈ (handleNewStatistic containers stat).1)
        ∧ (stat.execution_path.toList.contains '\\' = false →
            (handleNewStatistic containers stat).1 = containers)) := by
  constructor
  · intro h
    unfold handleNewStatistic
    rw [if_pos h]
  · intro h
    refine ⟨?_, ?_, ?_⟩
    · unfold handleNewStatistic
      rw [if_neg (by rw [h]; simp)]
    · intro hbs
      have hsome : (rpartitionLastSep '\\' stat.execution_path.toList).isSome = true :=
        (rpartitionLastSep_isSome_iff _ _).mpr (List.mem_of_elem_eq_true hbs)
      rcases Option.isSome_iff_exists.mp hsome with ⟨p, hp⟩
      unfold handleNewStatistic containerOf
      rw [if_neg (by rw [h]; simp), hp]
      exact mem_addContainer containers (String.mk (stripLoopIndexes p.1))
    · intro hbs
      have hns : '\\' ∉ stat.execution_path.toList := fun hm =>
        (ne_true_of_eq_false hbs) (List.elem_iff.mpr hm)
      have hnone : rpartitionLastSep '\\' stat.execution_path.toList = none :=
        Option.not_isSome_iff_eq_none.mp (fun hs => hns
          ((rpartitionLastSep_isSome_iff _ _).mp hs))
      unfold handleNewStatistic
      rw [if_neg (by rw [h]; simp), hnone]

/-- C8 witness: on an empty container set, the statistic with path
`Package\Loop[1]\Child` emits RUNNING at its start time and COMPLETED at its
end time, and registers the stripped container `Package\Loop`. -/
theorem C8_container_detection_witness :
    (handleNewStatistic []
        ⟨"Package\\Loop[1]\\Child", ExecutableStatisticResult.SUCCEEDED, 3, 7⟩).2
        = [⟨Status.RUNNING, 3⟩, ⟨Status.COMPLETED, 7⟩]
    ∧ containerOf "Package\\Loop[1]\\Child"
        ∈ (handleNewStatistic []
            ⟨"Package\\Loop[1]\\Child", ExecutableStatisticResult.SUCCEEDED, 3, 7⟩).1 := by
  have h := C8_container_detection []
    ⟨"Package\\Loop[1]\\Child", ExecutableStatisticResult.SUCCEEDED, 3, 7⟩
  exact ⟨(h.2 (by decide)).1, (h.2 (by decide)).2.1 (by decide)⟩

/-- C8 counterexample: with `Package\Loop` already registered, a statistic
whose path is exactly `Package\Loop` contains a backslash, yet it is skipped
and its own prefix `Package` is *not* registered — refuting the claim that
every backslash-containing path has its prefix registered. -/
theorem C8_skipped_statistic_not_registered :
    handleNewStatistic ["Package\\Loop"]
        ⟨"Package\\Loop", ExecutableStatisticResult.SUCCEEDED, 0, 1⟩
        = (["Package\\Loop"], [])
    ∧ "Package\\Loop".toList.contains '\\' = true
    ∧ containerOf "Package\\Loop" = "Package"
    ∧ containerOf "Package\\Loop"
        ∉ (handleNewStatistic ["Package\\Loop"]
            ⟨"Package\\Loop", ExecutableStatisticResult.SUCCEEDED, 0, 1⟩).1 := by
  refine ⟨by decide, by decide, by decide, by decide⟩

/-- Helper: association lookup over an append, left side first. -/
theorem lookup_append_of_none {l₁ l₂ : ConfigBlock} {f : String}
    (h : List.lookup f l₁ = none) :
    List.lookup f (l₁ ++ l₂) = List.lookup f l₂ := by
  induction l₁ with
  | nil => rfl
  | cons p rest ih =>
      rcases p with ⟨k, v⟩
      simp only [List.lookup] at h ⊢
      by_cases hk : (f == k) = true
      · rw [hk] at h
        exact absurd h (by simp)
      · rw [Bool.not_eq_true] at hk
        rw [hk] at h ⊢
        exact ih h

/-- Helper: association lookup over an append when the left side already has
the field. -/
theorem lookup_append_of_some {l₁ l₂ : ConfigBlock} {f : String} {w : String}
    (h : List.lookup f l₁ = some w) :
    List.lookup f (l₁ ++ l₂) = some w := by
  induction l₁ with
  | nil => exact absurd h (by simp)
  | cons p rest ih =>
      rcases p with ⟨k, v⟩
      simp only [List.lookup] at h ⊢
      by_cases hk : (f == k) = true
      · rw [hk] at h ⊢
        exact h
      · rw [Bool.not_eq_true] at hk
        rw [hk] at h ⊢
        exact ih h

/-- Helper: a field outside the excluded key set survives `model_dump` with the
same value. -/
theorem lookup_model_dump_exclude_of_not_mem {b : ConfigBlock} {ks : List String}
    {f : String} (h : ks.contains f = false) :
    List.lookup f (model_dump_exclude b ks) = List.lookup f b := by
  induction b with
  | nil => rfl
  | cons p rest ih =>
      rcases p with ⟨k, v⟩
      by_cases hk : (f == k) = true
      · have hfk : f = k := by simpa using hk
        subst hfk
        have hkeep : (!(ks.contains f)) = true := by rw [h]; rfl
        simp only [model_dump_exclude, List.filter_cons, hkeep, List.lookup, hk,
          if_true]
      · rw [Bool.not_eq_true] at hk
        simp only [model_dump_exclude, List.filter_cons]
        cases hkeep : !(ks.contains k) with
        | true =>
            simp only [List.lookup, hk]
            exact ih
        | false =>
            simp only [List.lookup, hk]
            exact ih

/-- Helper: a field inside the excluded key set is gone after `model_dump`. -/
theorem lookup_model_dump_exclude_of_mem {b : ConfigBlock} {ks : List String}
    {f : String} (h : ks.contains f = true) :
    List.lookup f (model_dump_exclude b ks) = none := by
  induction b with
  | nil => rfl
  | cons p rest ih =>
      rcases p with ⟨k, v⟩
      simp only [model_dump_exclude, List.filter_cons]
      cases hkeep : !(ks.contains k) with
      | true =>
          have hfk : (f == k) = false := by
            rw [Bool.not_eq_eq_eq_not, Bool.not_true] at hkeep
            by_cases hfe : f = k
            · subst hfe; rw [h] at hkeep; exact absurd hkeep (by simp)
            · simpa using hfe
          simp only [List.lookup, hfk]
          exact ih
      | false =>
          exact ih

/-- Helper: the first components of an association list determine whether a
lookup fails. -/
theorem lookup_none_iff_keys_not_contains (ov : ConfigBlock) (f : String) :
    List.lookup f ov = none ↔ (ov.map Prod.fst).contains f = false := by
  induction ov with
  | nil => simp
  | cons p rest ih =>
      rcases p with ⟨k, v⟩
      simp only [List.lookup, List.map_cons, List.contains_cons]
      by_cases hk : (f == k) = true
      · rw [hk]
        simp
      · rw [Bool.not_eq_true] at hk
        rw [hk]
        simp only [hk, Bool.false_or]
        exact ih

/-- C9: for a registered block, `mutate` builds a block equal to the override
values on every overridden field and to the registered block everywhere else,
and the registry itself is untouched: looking the name up after the mutate
still returns the original block. -/
theorem C9_mutate_overrides_and_frame (reg : Registry) (n : String)
    (b : ConfigBlock) (overrides : ConfigBlock) (f : String) (v : String)
    (h : registryLookup reg n = some b) :
    (registryMutate reg n overrides).2 = reg
    ∧ registryLookup (registryMutate reg n overrides).2 n = some b
    ∧ (registryMutate reg n overrides).1 = some (mutateBlock b overrides)
    ∧ (List.lookup f overrides = none →
        List.lookup f (mutateBlock b overrides) = List.lookup f b)
    ∧ (List.lookup f overrides = some v →
        List.lookup f (mutateBlock b overrides) = some v) := by
  refine ⟨rfl, h, ?_, ?_, ?_⟩
  · simp only [registryMutate]
    rw [show reg.lookup n = some b from h]
    rfl
  · intro hov
    unfold mutateBlock
    have hks : ((overrides.map Prod.fst).contains f) = false :=
      (lookup_none_iff_keys_not_contains overrides f).mp hov
    have hdump := lookup_model_dump_exclude_of_not_mem (b := b) hks
    cases hb : List.lookup f b with
    | some w =>
        rw [lookup_append_of_some (by rw [hdump, hb])]
    | none =>
        rw [lookup_append_of_none (by rw [hdump, hb]), hov]
  · intro hov
    unfold mutateBlock
    have hks : ((overrides.map Prod.fst).contains f) = true := by
      cases hcontains : (overrides.map Prod.fst).contains f with
      | true => rfl
      | false =>
          rw [(lookup_none_iff_keys_not_contains overrides f).mpr hcontains] at hov
          exact absurd hov (by simp)
    rw [lookup_append_of_none (lookup_model_dump_exclude_of_mem hks)]
    exact hov

/-- C9 witness: in a registry holding an `http` block with a read timeout of 60
and verification on, overriding the read timeout to 30 keeps the verification
field, takes the override, and leaves the registry unchanged. -/
theorem C9_mutate_overrides_and_frame_witness :
    registryLookup [("http", [("read_timeout", "60"), ("verify", "on")])] "http"
        = some [("read_timeout", "60"), ("verify", "on")]
    ∧ List.lookup "verify"
        (mutateBlock [("read_timeout", "60"), ("verify", "on")] [("read_timeout", "30")])
        = List.lookup "verify" [("read_timeout", "60"), ("verify", "on")]
    ∧ List.lookup "read_timeout"
        (mutateBlock [("read_timeout", "60"), ("verify", "on")] [("read_timeout", "30")])
        = some "30"
    ∧ (registryMutate [("http", [("read_timeout", "60"), ("verify", "on")])] "http"
        [("read_timeout", "30")]).2
        = [("http", [("read_timeout", "60"), ("verify", "on")])] := by
  have h1 := C9_mutate_overrides_and_frame
    [("http", [("read_timeout", "60"), ("verify", "on")])] "http"
    [("read_timeout", "60"), ("verify", "on")] [("read_timeout", "30")]
    "verify" "30" (by decide)
  have h2 := C9_mutate_overrides_and_frame
    [("http", [("read_timeout", "60"), ("verify", "on")])] "http"
    [("read_timeout", "60"), ("verify", "on")] [("read_timeout", "30")]
    "read_timeout" "30" (by decide)
  exact ⟨by decide, h1.2.2.2.1 (by decide), h2.2.2.2.2 (by decide), h1.1⟩

/-- Helper for C3: running the configured retry loop against a server that
still owes `k - i - 1` matching answers before its 200, with enough fuel,
returns the 200 with `k + 1` total requests and the geometric sleep total. -/
theorem configuredRetryGo_eval (S : ℕ) (b : ℚ) (k : ℕ) (hS : S ≠ 200) :
    ∀ m, ∀ i slept, i < k → k ≤ i + m →
      retryLoopGo (fun r => r.status_code == S) b (serverKThenOk S k) m i
          ⟨S, ""⟩ (i + 1) slept
        = ⟨⟨200, ""⟩, k + 1, slept + b * ((2 : ℚ) ^ k - 2 ^ i) / 2⟩ := by
  intro m
  induction m with
  | zero =>
      intro i slept hik him
      exact absurd hik (by omega)
  | succ m ih =>
      intro i slept hik him
      by_cases hnext : i + 1 < k
      · have hresp : serverKThenOk S k (i + 1) = ⟨S, ""⟩ := by
          simp [serverKThenOk, hnext]
        simp only [retryLoopGo, hresp]
        rw [if_pos (by simp)]
        rw [ih (i + 1) (slept + b * (2 : ℚ) ^ i / 2) hnext (by omega)]
        simp only [RetryOutcome.mk.injEq, true_and]
        rw [pow_succ]
        ring
      · have hk : k = i + 1 := by omega
        subst hk
        have hresp : serverKThenOk S (i + 1) (i + 1) = ⟨200, ""⟩ := by
          simp [serverKThenOk]
        simp only [retryLoopGo, hresp]
        rw [if_neg (by simp [Ne.symm hS])]
        simp only [RetryOutcome.mk.injEq, true_and]
        rw [pow_succ]
        ring

/-- C3 (corrected): a handle with retry entry `{status := S, retry_count := k,
backoff_multiplier := b}` against a server answering `S` exactly `k` times and
then 200 returns the 200 response after exactly `k + 1` requests, and the total
time slept is `b * (2 ^ k - 1) / 2` seconds — the waits are
`b * 2 ** (i - 1)` for loop indexes `i = 0, ..., k - 1`, half the sum the
claim states. -/
theorem C3_configured_retry_totals (S : ℕ) (b : ℚ) (k : ℕ) (hS : S ≠ 200) :
    configuredRetryStage S b k (serverKThenOk S k)
      = ⟨⟨200, ""⟩, k + 1, b * ((2 : ℚ) ^ k - 1) / 2⟩ := by
  cases k with
  | zero =>
      have h200 : ((200 : ℕ) == S) = false := beq_eq_false_iff_ne.mpr (Ne.symm hS)
      simp only [configuredRetryStage, serverKThenOk, Nat.lt_irrefl, if_false,
        h200, pow_zero]
      norm_num
  | succ k0 =>
      have hresp0 : serverKThenOk S (k0 + 1) 0 = ⟨S, ""⟩ := by
        simp [serverKThenOk]
      unfold configuredRetryStage
      rw [hresp0]
      rw [if_pos (by simp)]
      rw [configuredRetryGo_eval S b (k0 + 1) hS (k0 + 1) 0 0 (Nat.succ_pos k0)
        (by omega)]
      simp only [RetryOutcome.mk.injEq, true_and]
      norm_num

/-- C3 witness: for status 500, backoff multiplier 1 and two retries against a
server answering 500 twice then 200, the handle returns the 200 after three
requests, having slept `1 * (2 ^ 2 - 1) / 2 = 3 / 2` seconds. -/
theorem C3_configured_retry_totals_witness :
    (500 : ℕ) ≠ 200
    ∧ configuredRetryStage 500 1 2 (serverKThenOk 500 2)
        = ⟨⟨200, ""⟩, 2 + 1, 1 * ((2 : ℚ) ^ 2 - 1) / 2⟩ :=
  ⟨by decide, C3_configured_retry_totals 500 1 2 (by decide)⟩

/-- C3 counterexample: with `S = 500`, `k = 1`, `b = 1`, the claimed lower
bound on the total sleep is `1 * 2 ^ 0 = 1` second, but the handle sleeps only
`1 / 2` second before its single retry. -/
theorem C3_total_sleep_below_claimed_bound :
    configuredRetryStage 500 1 1 (serverKThenOk 500 1)
        = ⟨⟨200, ""⟩, 2, 1 / 2⟩
    ∧ ¬ ((1 : ℚ) ≤ 1 / 2) := by
  constructor
  · norm_num [configuredRetryStage, retryLoopGo, serverKThenOk]
  · norm_num

/-- C5 (corrected): when the first response is a 401 carrying the retry text,
the handle replays the identical request up to 3 times, stops as soon as a
reply no longer matches the heuristic, and returns the final response
regardless of its status; the wait before replay `i` (1-based) is
`0.5 * 2 ** (i - 2)` seconds — 0.25, 0.5, 1.0 — so after `m` replays the total
slept is `(2 ^ m - 1) / 4` seconds. -/
theorem C5_auth_soft_failure_retry (respOf : ℕ → HTTPResponse)
    (h0 : authRetryMatches (respOf 0) = true) :
    authRetryStage respOf
      = ⟨respOf (firstNonMatching respOf), firstNonMatching respOf + 1,
          ((2 : ℚ) ^ firstNonMatching respOf - 1) / 4⟩ := by
  unfold authRetryStage
  rw [if_pos h0]
  by_cases h1 : authRetryMatches (respOf 1) = true
  · by_cases h2 : authRetryMatches (respOf 2) = true
    · by_cases h3 : authRetryMatches (respOf 3) = true
      · simp only [retryLoopGo, firstNonMatching, h1, h2, h3]
        norm_num
      · rw [Bool.not_eq_true] at h3
        simp only [retryLoopGo, firstNonMatching, h1, h2, h3]
        norm_num
    · rw [Bool.not_eq_true] at h2
      simp only [retryLoopGo, firstNonMatching, h1, h2]
      norm_num
  · rw [Bool.not_eq_true] at h1
    simp only [retryLoopGo, firstNonMatching, h1]
    norm_num

/-- C5 witness: a server whose first answer is a 401 with the retry text and
whose replay answers 200 makes the handle sleep 0.25 seconds, replay once, and
return the 200. -/
theorem C5_auth_soft_failure_retry_witness :
    authRetryMatches (authDemoServer 0) = true
    ∧ authRetryStage authDemoServer
        = ⟨authDemoServer (firstNonMatching authDemoServer),
            firstNonMatching authDemoServer + 1,
            ((2 : ℚ) ^ firstNonMatching authDemoServer - 1) / 4⟩ :=
  ⟨by decide, C5_auth_soft_failure_retry authDemoServer (by decide)⟩

/-- C5 counterexample: against a server that always answers 401 with the retry
text, the three replays sleep 0.25, 0.5 and 1.0 seconds — 7/4 in total — not
the 0.5, 1.0 and 2.0 seconds (7/2 in total) the claim states. -/
theorem C5_waits_are_quarter_half_one :
    (authRetryStage (fun _ => ⟨401, "please try again in a bit"⟩)).slept = 7 / 4
    ∧ (7 : ℚ) / 4 ≠ 7 / 2 := by
  constructor
  · have h : authRetryMatches ⟨401, "please try again in a bit"⟩ = true := by decide
    simp [authRetryStage, retryLoopGo, h]
    norm_num
  · norm_num

end Spec2Proof
